import Mathlib

/-!
Verification development for the Claw.Fund autonomous trading agent
(decision pipeline: momentum scorer, risk gate, orchestrator, portfolio
state machine, tick scheduler, execution boundary).

Shallow embedding conventions:
* JavaScript numbers are modelled as `ℚ`; epoch-millisecond timestamps as `ℤ`.
* `Date.now()` becomes an explicit `now : ℤ` parameter wherever the source
  reads the wall clock.
* `Record<string, number>` maps become association lists with first-match
  lookup; updates replace the first matching key or append (JS objects keep
  unique keys, so this coincides with their semantics).
* Human-readable reason/rationale strings are modelled structurally: the
  rule tag of a risk reason is preserved exactly, while the numeric
  interpolation done with `toFixed` in the source is omitted (no claim
  depends on the rendered digits).
-/

-- ─── Data model (src/types.ts) ───────────────────────────────────

/-- The `Token` from src/types.ts: immutable token identity. -/
structure Token where
  address : String
  symbol : String
  name : String
  decimals : ℕ
  totalSupply : ℚ
  createdAt : ℤ
  deriving Repr, DecidableEq

/-- The `TokenMarketData` from src/types.ts: rolling-window market data. -/
structure TokenMarketData where
  token : Token
  priceUsd : ℚ
  price1mAgo : ℚ
  price5mAgo : ℚ
  volume1m : ℚ
  volume5m : ℚ
  liquidity : ℚ
  previousLiquidity : ℚ
  updatedAt : ℤ
  deriving Repr, DecidableEq

/-- The `TradeAction` enum from src/types.ts. -/
inductive TradeAction where
  | BUY
  | SELL
  | HOLD
  deriving Repr, DecidableEq

/-- The `MomentumResult` from src/types.ts. -/
structure MomentumResult where
  action : TradeAction
  confidence : ℚ
  momentumScore : ℚ
  reasoning : String
  deriving Repr, DecidableEq

/-- The `TradeDecision` from src/types.ts. -/
structure TradeDecision where
  token : Token
  action : TradeAction
  confidence : ℚ
  momentumScore : ℚ
  reason : String
  suggestedSize : ℚ
  deriving Repr, DecidableEq

/-- The `ExecutionResult` from src/types.ts (optional fields as `Option`). -/
structure ExecutionResult where
  success : Bool
  txHash : Option String
  gasEstimate : Option ℚ
  error : Option String
  deriving Repr, DecidableEq

/-- The `PortfolioState` from src/types.ts.  The two `Record<string, _>` maps
are association lists keyed by token address. -/
structure PortfolioState where
  totalExposure : ℚ
  allocations : List (String × ℚ)
  lastTradeTimestamps : List (String × ℤ)
  deriving Repr, DecidableEq

/-- Which of the four risk rules produced a failure reason.  The source
stores a rendered string; the rule named by that string is what the tag
records (numeric interpolation omitted, see file header). -/
inductive RiskReason where
  | allocationCap
  | exposureCap
  | liquidityFloor
  | cooldown
  deriving Repr, DecidableEq

/-- The `RiskResult` from src/types.ts: `reason` is present only on failure. -/
structure RiskResult where
  pass : Bool
  reason : Option RiskReason
  deriving Repr, DecidableEq

-- ─── Configuration (src/config.ts defaults) ──────────────────────

/-- Shape of `RISK_CONFIG` in src/config.ts. -/
structure RiskConfig where
  maxAllocationPerToken : ℚ
  maxTotalExposure : ℚ
  minLiquidityUsd : ℚ
  cooldownMinutes : ℤ
  deriving Repr, DecidableEq

/-- The `RISK_CONFIG` constants from src/config.ts. -/
def RISK_CONFIG : RiskConfig :=
  { maxAllocationPerToken := 15 / 100
    maxTotalExposure := 6 / 10
    minLiquidityUsd := 100000
    cooldownMinutes := 5 }

/-- Shape of the `config` object in src/config.ts (the fields the decision
pipeline reads). -/
structure Config where
  DRY_RUN : Bool
  POLL_INTERVAL_MS : ℤ
  POSITION_SIZE : ℚ
  deriving Repr, DecidableEq

/-- The `config` defaults from src/config.ts (environment overrides not set). -/
def config : Config :=
  { DRY_RUN := true
    POLL_INTERVAL_MS := 10000
    POSITION_SIZE := 1 / 10 }

-- ─── Association-list helpers for Record<string, _> ──────────────

/-- Lookup in a `Record<string, number>`: `m[addr]`, `undefined` ↦ `none`. -/
def lookupEntry {α : Type} : List (String × α) → String → Option α
  | [], _ => none
  | p :: t, k => if p.1 = k then some p.2 else lookupEntry t k

/-- The `m[addr] ?? 0` on an allocation map. -/
def getAllocD (l : List (String × ℚ)) (k : String) : ℚ :=
  (lookupEntry l k).getD 0

/-- The `m[addr] = v`: replace the first matching key or append a fresh one. -/
def setEntry {α : Type} : List (String × α) → String → α → List (String × α)
  | [], k, v => [(k, v)]
  | p :: t, k, v => if p.1 = k then (k, v) :: t else p :: setEntry t k v

/-- The `Object.values(allocations).reduce((sum, v) => sum + v, 0)`. -/
def sumAllocations (l : List (String × ℚ)) : ℚ :=
  (l.map Prod.snd).sum

-- ─── Risk engine (src/risk/riskEngine.ts, evaluateRisk) ──────────

/-- The `evaluateRisk` from src/risk/riskEngine.ts.  Four rules in fixed order,
first failure short-circuits.  `now` is the `Date.now()` reading taken by
the cooldown rule. -/
def evaluateRisk (token : TokenMarketData) (decision : TradeDecision)
    (portfolioState : PortfolioState) (now : ℤ) : RiskResult :=
  let addr := token.token.address
  let alloc := decision.suggestedSize
  -- Rule 1 — per-token allocation cap
  if alloc > RISK_CONFIG.maxAllocationPerToken then
    { pass := false, reason := some RiskReason.allocationCap }
  else
    -- Rule 2 — total portfolio exposure cap
    let projectedExposure := portfolioState.totalExposure + alloc
    if projectedExposure > RISK_CONFIG.maxTotalExposure then
      { pass := false, reason := some RiskReason.exposureCap }
    -- Rule 3 — minimum liquidity floor
    else if token.liquidity < RISK_CONFIG.minLiquidityUsd then
      { pass := false, reason := some RiskReason.liquidityFloor }
    else
      -- Rule 4 — cooldown timer
      match lookupEntry portfolioState.lastTradeTimestamps addr with
      | some lastTrade =>
        if now - lastTrade < RISK_CONFIG.cooldownMinutes * 60000 then
          { pass := false, reason := some RiskReason.cooldown }
        else
          { pass := true, reason := none }
      | none => { pass := true, reason := none }

-- ─── The four rule-failure conditions, named for the theorems ────

/-- Condition under which rule 1 (per-token allocation cap) fails. -/
def allocationCapFails (decision : TradeDecision) : Prop :=
  decision.suggestedSize > RISK_CONFIG.maxAllocationPerToken

instance (d : TradeDecision) : Decidable (allocationCapFails d) := by
  unfold allocationCapFails; infer_instance

/-- Condition under which rule 2 (total exposure cap) fails. -/
def exposureCapFails (decision : TradeDecision)
    (portfolioState : PortfolioState) : Prop :=
  portfolioState.totalExposure + decision.suggestedSize >
    RISK_CONFIG.maxTotalExposure

instance (d : TradeDecision) (ps : PortfolioState) :
    Decidable (exposureCapFails d ps) := by
  unfold exposureCapFails; infer_instance

/-- Condition under which rule 3 (liquidity floor) fails. -/
def liquidityFloorFails (token : TokenMarketData) : Prop :=
  token.liquidity < RISK_CONFIG.minLiquidityUsd

instance (t : TokenMarketData) : Decidable (liquidityFloorFails t) := by
  unfold liquidityFloorFails; infer_instance

/-- Condition under which rule 4 (cooldown) fails: a prior trade timestamp
exists and less than `cooldownMinutes` have elapsed. -/
def cooldownFails (token : TokenMarketData)
    (portfolioState : PortfolioState) (now : ℤ) : Prop :=
  ∃ t, lookupEntry portfolioState.lastTradeTimestamps token.token.address
      = some t ∧ now - t < RISK_CONFIG.cooldownMinutes * 60000

instance (tk : TokenMarketData) (ps : PortfolioState) (now : ℤ) :
    Decidable (cooldownFails tk ps now) := by
  unfold cooldownFails
  cases h : lookupEntry ps.lastTradeTimestamps tk.token.address with
  | none => exact .isFalse (by simp [h])
  | some t =>
      by_cases hc : now - t < RISK_CONFIG.cooldownMinutes * 60000
      · exact .isTrue ⟨t, by simp [h], hc⟩
      · exact .isFalse (by simp [h, hc])

-- ─── Momentum strategy (src/strategies/momentumStrategy.ts) ──────

/-- Scoring weight `W_PRICE`. -/
def W_PRICE : ℚ := 40

/-- Scoring weight `W_VOLUME`. -/
def W_VOLUME : ℚ := 30

/-- Scoring weight `W_LIQUIDITY`. -/
def W_LIQUIDITY : ℚ := 30

/-- Threshold `BUY_THRESHOLD`. -/
def BUY_THRESHOLD : ℚ := 75

/-- Threshold `SELL_THRESHOLD`. -/
def SELL_THRESHOLD : ℚ := 40

/-- Normalisation cap `PRICE_CAP` (30 % price move saturates). -/
def PRICE_CAP : ℚ := 30 / 100

/-- Normalisation cap `VOLUME_CAP` (volume1m / volume5m cap). -/
def VOLUME_CAP : ℚ := 5

/-- Normalisation cap `LIQUIDITY_CAP` (20 % liquidity delta saturates). -/
def LIQUIDITY_CAP : ℚ := 20 / 100

/-- The `clamp` from momentumStrategy.ts: `Math.min(Math.max(v, min), max)`. -/
def clamp (v mn mx : ℚ) : ℚ :=
  min (max v mn) mx

/-- The `safeDelta`: `(current - previous) / previous`, `0` when `|previous|`
is below `1e-12`. -/
def safeDelta (current previous : ℚ) : ℚ :=
  if |previous| < 1 / 10 ^ 12 then 0 else (current - previous) / previous

/-- The `safeRatio`: `current / previous`, neutral `1` when `|previous|` is
below `1e-12`. -/
def safeRatio (current previous : ℚ) : ℚ :=
  if |previous| < 1 / 10 ^ 12 then 1 else current / previous

/-- The `normalise` from momentumStrategy.ts: symmetric saturating map,
`-cap ↦ 0`, `0 ↦ 1/2`, `+cap ↦ 1`. -/
def normalise (value cap : ℚ) : ℚ :=
  (clamp value (-cap) cap + cap) / (2 * cap)

namespace MomentumStrategy

/-- The `MomentumStrategy.decide`: classify a composite score into an action.
The per-branch `reasoning` template strings keep the source wording with
the interpolated numbers omitted. -/
def decide (momentumScore : ℚ) : MomentumResult :=
  if momentumScore > BUY_THRESHOLD then
    { action := TradeAction.BUY
      confidence := momentumScore / 100
      momentumScore := momentumScore
      reasoning := "Score > 75 -> BUY" }
  else if momentumScore < SELL_THRESHOLD then
    { action := TradeAction.SELL
      confidence := momentumScore / 100
      momentumScore := momentumScore
      reasoning := "Score < 40 -> SELL" }
  else
    { action := TradeAction.HOLD
      confidence := momentumScore / 100
      momentumScore := momentumScore
      reasoning := "Score in [40,75] -> HOLD" }

/-- The weighted blend of the three normalised metrics computed inside
`MomentumStrategy.score` (the `raw` local of the source, factored out):
`priceNorm * 40 + volumeNorm * 30 + liquidityNorm * 30`. -/
def rawScore (md : TokenMarketData) : ℚ :=
  normalise (safeDelta md.priceUsd md.price5mAgo) PRICE_CAP * W_PRICE +
  normalise (safeRatio md.volume1m md.volume5m - 1) (VOLUME_CAP - 1) *
    W_VOLUME +
  normalise (safeDelta md.liquidity md.previousLiquidity) LIQUIDITY_CAP *
    W_LIQUIDITY

/-- The `MomentumStrategy.score`: the core scoring function.  The rich
reasoning string enumerates the raw signals in the source; here the
skeleton of that string is kept (interpolated digits omitted, see the
file header). -/
def score (md : TokenMarketData) : TradeDecision :=
  let momentumScore := clamp (rawScore md) 0 100
  let result := decide momentumScore
  { token := md.token
    action := result.action
    confidence := result.confidence
    momentumScore := result.momentumScore
    reason := "priceD5m | volSpike | liqD | score -> action"
    suggestedSize :=
      if result.action = TradeAction.HOLD then 0
      else config.POSITION_SIZE * result.confidence }

/-- The `MomentumStrategy.evaluate`: score every snapshot. -/
def evaluate (tokens : List TokenMarketData) : List TradeDecision :=
  tokens.map score

end MomentumStrategy

-- ─── Decision engine (src/engine/decisionEngine.ts) ──────────────

/-- The `IStrategy` from src/types.ts. -/
structure IStrategy where
  name : String
  evaluate : List TokenMarketData → List TradeDecision

/-- The `Map(tokens.map t => [t.token.address, t])` lookup built in
`DecisionEngine.evaluate` (token addresses are unique per fetch). -/
def lookupMarketData (tokens : List TokenMarketData) (addr : String) :
    Option TokenMarketData :=
  tokens.find? (fun t => t.token.address = addr)

/-- Rendering of a risk reason into the rationale suffix (the rule-naming
skeleton of the source template, digits omitted). -/
def reasonText : RiskReason → String
  | RiskReason.allocationCap => "allocation above per-token max"
  | RiskReason.exposureCap => "projected exposure above max"
  | RiskReason.liquidityFloor => "liquidity below min"
  | RiskReason.cooldown => "cooldown active"

/-- The body of the `decisions.map` in `DecisionEngine.evaluate`: HOLD
decisions and decisions without matching market data pass through; a
risk-gate failure downgrades to HOLD with the blocked rationale. -/
def gateDecision (tokens : List TokenMarketData)
    (portfolioState : PortfolioState) (now : ℤ)
    (d : TradeDecision) : TradeDecision :=
  if d.action = TradeAction.HOLD then d
  else
    match lookupMarketData tokens d.token.address with
    | none => d
    | some md =>
      let riskResult := evaluateRisk md d portfolioState now
      if riskResult.pass then d
      else
        { d with
            action := TradeAction.HOLD
            suggestedSize := 0
            reason := d.reason ++ " || RISK BLOCKED: " ++
              ((riskResult.reason.map reasonText).getD ("undefined")) }

namespace DecisionEngine

/-- The `DecisionEngine.evaluate`: run every strategy over the market data,
then gate each decision. -/
def evaluate (strategies : List IStrategy)
    (tokens : List TokenMarketData) (portfolioState : PortfolioState)
    (now : ℤ) : List TradeDecision :=
  (strategies.map
    (fun s => (s.evaluate tokens).map (gateDecision tokens portfolioState now))).flatten

end DecisionEngine

-- ─── Execution engine (src/execution/executionEngine.ts) ─────────

/-- The `executeTrade` from src/execution/executionEngine.ts.  The simulated
gas estimate and mock transaction hash are random in the source; they are
passed in as explicit oracle arguments here.  In both the DRY_RUN and the
live mock path the call succeeds with that hash and estimate. -/
def executeTrade (decision : TradeDecision) (dryRun : Bool)
    (gasEstimate : ℚ) (txHash : String) : ExecutionResult :=
  -- HOLD decisions are not executable
  if decision.action = TradeAction.HOLD then
    { success := false, txHash := none, gasEstimate := none
      error := some ("HOLD is not an executable action") }
  -- DRY_RUN guard
  else if dryRun then
    { success := true, txHash := some txHash
      gasEstimate := some gasEstimate, error := none }
  -- Live execution path (mock for now)
  else
    { success := true, txHash := some txHash
      gasEstimate := some gasEstimate, error := none }

-- ─── Agent loop portfolio updates (src/agent/agentLoop.ts) ───────

/-- The portfolio mutation performed inside the tick loop for one
*successful* execution (agentLoop.ts lines 108–120): BUY adds the
suggested size to the token's allocation, SELL subtracts it clamped at 0,
and the last-trade timestamp is set to `Date.now()` (passed as `now`).
`totalExposure` is NOT touched here — the source recomputes it only after
the whole execution loop. -/
def applyExecutionSuccess (ps : PortfolioState) (decision : TradeDecision)
    (now : ℤ) : PortfolioState :=
  let addr := decision.token.address
  let size := decision.suggestedSize
  let allocations :=
    if decision.action = TradeAction.BUY then
      setEntry ps.allocations addr (getAllocD ps.allocations addr + size)
    else if decision.action = TradeAction.SELL then
      setEntry ps.allocations addr
        (max (getAllocD ps.allocations addr - size) 0)
    else ps.allocations
  { ps with
      allocations := allocations
      lastTradeTimestamps := setEntry ps.lastTradeTimestamps addr now }

/-- The end-of-tick recomputation (agentLoop.ts lines 143–144):
`totalExposure` is recomputed as the sum over the allocation map. -/
def recomputeExposure (ps : PortfolioState) : PortfolioState :=
  { ps with totalExposure := sumAllocations ps.allocations }

/-- Net portfolio effect of one tick's execution phase: fold the
successful executions (decision paired with its `Date.now()` reading) in
order, then recompute the exposure. -/
def tickPortfolio (ps : PortfolioState)
    (executed : List (TradeDecision × ℤ)) : PortfolioState :=
  recomputeExposure
    (executed.foldl (fun s p => applyExecutionSuccess s p.1 p.2) ps)

-- ─── Tick scheduling model (src/index.ts / agentLoop.ts) ─────────

/-- Start time of tick `k` under the source's scheduling
(`await tick(); setInterval(tick, interval)`): the initial tick starts at
time 0 and is awaited; `setInterval` is installed when it completes (after
`firstTickDuration`) and then invokes the tick callback every `interval`
milliseconds — *without* awaiting the previous asynchronous tick. -/
def tickStart (firstTickDuration interval : ℤ) : ℕ → ℤ
  | 0 => 0
  | k + 1 => firstTickDuration + (k + 1) * interval

/-- Completion time of tick `k` when tick `k` takes `dur k` milliseconds
of wall time. -/
def tickEnd (dur : ℕ → ℤ) (interval : ℤ) (k : ℕ) : ℤ :=
  tickStart (dur 0) interval k + dur k

/-- Ticks are strictly sequential (never overlapping): every tick
completes no later than the next tick starts. -/
def ticksSequential (dur : ℕ → ℤ) (interval : ℤ) : Prop :=
  ∀ k, tickEnd dur interval k ≤ tickStart (dur 0) interval (k + 1)

-- ─── Helper lemmas ───────────────────────────────────────────────

/-- The `evaluateRisk` as a cascade over the four named rule conditions. -/
theorem evaluateRisk_eq (md : TokenMarketData) (d : TradeDecision)
    (ps : PortfolioState) (now : ℤ) :
    evaluateRisk md d ps now =
      if allocationCapFails d then
        { pass := false, reason := some RiskReason.allocationCap }
      else if exposureCapFails d ps then
        { pass := false, reason := some RiskReason.exposureCap }
      else if liquidityFloorFails md then
        { pass := false, reason := some RiskReason.liquidityFloor }
      else if cooldownFails md ps now then
        { pass := false, reason := some RiskReason.cooldown }
      else { pass := true, reason := none } := by
  simp only [evaluateRisk, allocationCapFails, exposureCapFails,
    liquidityFloorFails]
  by_cases h1 : d.suggestedSize > RISK_CONFIG.maxAllocationPerToken
  · simp [h1]
  · by_cases h2 :
        ps.totalExposure + d.suggestedSize > RISK_CONFIG.maxTotalExposure
    · simp [h1, h2]
    · by_cases h3 : md.liquidity < RISK_CONFIG.minLiquidityUsd
      · simp [h1, h2, h3]
      · simp only [if_neg h1, if_neg h2, if_neg h3]
        cases hL : lookupEntry ps.lastTradeTimestamps md.token.address with
        | none => simp [cooldownFails, hL]
        | some t =>
            by_cases hc : now - t < RISK_CONFIG.cooldownMinutes * 60000
            · simp [cooldownFails, hL, hc]
            · simp [cooldownFails, hL, hc]

/-- Lookup after `setEntry` on the written key returns the written value. -/
theorem lookupEntry_setEntry_self {α : Type} (l : List (String × α))
    (k : String) (v : α) : lookupEntry (setEntry l k v) k = some v := by
  induction l with
  | nil => simp [setEntry, lookupEntry]
  | cons p t ih =>
      by_cases h : p.1 = k
      · simp [setEntry, lookupEntry, h]
      · simp [setEntry, lookupEntry, h, ih]

/-- A successful lookup returns a value stored in the list. -/
theorem lookupEntry_mem {α : Type} {l : List (String × α)} {k : String}
    {v : α} (h : lookupEntry l k = some v) : (k, v) ∈ l := by
  induction l with
  | nil => simp [lookupEntry] at h
  | cons p t ih =>
      obtain ⟨p1, p2⟩ := p
      by_cases hk : p1 = k
      · subst hk
        simp [lookupEntry] at h
        subst h
        exact List.mem_cons_self _ _
      · simp [lookupEntry, hk] at h
        exact List.mem_cons_of_mem _ (ih h)

/-- All values of an allocation map nonnegative ⇒ default lookup is. -/
theorem getAllocD_nonneg {l : List (String × ℚ)} {k : String}
    (h : ∀ q ∈ l, 0 ≤ q.2) : 0 ≤ getAllocD l k := by
  unfold getAllocD
  cases hL : lookupEntry l k with
  | none => simp
  | some v => simpa using h _ (lookupEntry_mem hL)

/-- The `setEntry` with a nonnegative value preserves value nonnegativity. -/
theorem setEntry_nonneg {l : List (String × ℚ)} {k : String} {v : ℚ}
    (h : ∀ q ∈ l, 0 ≤ q.2) (hv : 0 ≤ v) :
    ∀ q ∈ setEntry l k v, 0 ≤ q.2 := by
  induction l with
  | nil => simp [setEntry, hv]
  | cons p t ih =>
      intro q hq
      by_cases hk : p.1 = k
      · simp only [setEntry, if_pos hk, List.mem_cons] at hq
        rcases hq with hq | hq
        · simp [hq, hv]
        · exact h _ (List.mem_cons_of_mem _ hq)
      · simp only [setEntry, if_neg hk, List.mem_cons] at hq
        rcases hq with hq | hq
        · exact hq ▸ h _ (List.mem_cons_self _ _)
        · exact ih (fun r hr => h _ (List.mem_cons_of_mem _ hr)) _ hq

/-- One successful execution keeps every allocation value nonnegative,
provided the executed size is nonnegative. -/
theorem applyExecutionSuccess_nonneg {ps : PortfolioState}
    {d : TradeDecision} {now : ℤ} (h : ∀ q ∈ ps.allocations, 0 ≤ q.2)
    (hd : 0 ≤ d.suggestedSize) :
    ∀ q ∈ (applyExecutionSuccess ps d now).allocations, 0 ≤ q.2 := by
  unfold applyExecutionSuccess
  by_cases hb : d.action = TradeAction.BUY
  · simp only [hb, if_pos rfl]
    exact setEntry_nonneg h (add_nonneg (getAllocD_nonneg h) hd)
  · by_cases hs : d.action = TradeAction.SELL
    · simp only [if_neg hb, hs, if_pos rfl]
      exact setEntry_nonneg h (le_max_right _ 0)
    · simpa [if_neg hb, if_neg hs] using h

/-- Folding successful executions keeps allocation values nonnegative. -/
theorem foldl_applyExecutionSuccess_nonneg
    (executed : List (TradeDecision × ℤ)) (ps : PortfolioState)
    (h : ∀ q ∈ ps.allocations, 0 ≤ q.2)
    (hsz : ∀ p ∈ executed, 0 ≤ p.1.suggestedSize) :
    ∀ q ∈ (executed.foldl
        (fun s p => applyExecutionSuccess s p.1 p.2) ps).allocations,
      0 ≤ q.2 := by
  induction executed generalizing ps with
  | nil => simpa using h
  | cons p t ih =>
      simp only [List.foldl_cons]
      exact ih _
        (applyExecutionSuccess_nonneg h (hsz _ (List.mem_cons_self _ _)))
        (fun r hr => hsz _ (List.mem_cons_of_mem _ hr))

-- ─── Concrete sample inputs for witnesses and counterexamples ────

/-- Sample token used by witnesses. -/
def sampleToken : Token :=
  { address := "0xAAA", symbol := "AAA", name := "Token AAA"
    decimals := 18, totalSupply := 1000000, createdAt := 0 }

/-- Sample market data with ample liquidity. -/
def sampleMd : TokenMarketData :=
  { token := sampleToken, priceUsd := 100, price1mAgo := 99
    price5mAgo := 98, volume1m := 10, volume5m := 50
    liquidity := 200000, previousLiquidity := 190000, updatedAt := 0 }

/-- Sample market data below the liquidity floor. -/
def lowLiqMd : TokenMarketData :=
  { sampleMd with liquidity := 50000 }

/-- A BUY decision of size 0.10 (within the per-token cap). -/
def smallBuy : TradeDecision :=
  { token := sampleToken, action := TradeAction.BUY, confidence := 8 / 10
    momentumScore := 80, reason := "momentum", suggestedSize := 1 / 10 }

/-- A BUY decision of size 0.20 (above the 0.15 per-token cap). -/
def bigBuy : TradeDecision :=
  { smallBuy with suggestedSize := 2 / 10 }

/-- An empty portfolio. -/
def emptyPortfolio : PortfolioState :=
  { totalExposure := 0, allocations := [], lastTradeTimestamps := [] }

/-- A portfolio whose only record is a prior trade on the sample token. -/
def tradedPortfolio : PortfolioState :=
  { emptyPortfolio with lastTradeTimestamps := [("0xAAA", 0)] }

-- ─── C1 ──────────────────────────────────────────────────────────

/-- C1: the Risk Gate evaluates the four rules in the fixed order
allocation cap, exposure cap, liquidity floor, cooldown; the first failing
rule short-circuits and its reason is returned (so an allocation-cap
violation masks a liquidity-floor violation); a missing prior trade
timestamp makes the cooldown rule pass trivially; and when all four rules
pass the outcome is `pass = true` with no reason. -/
theorem riskGate_fixed_order_first_failure (md : TokenMarketData)
    (d : TradeDecision) (ps : PortfolioState) (now : ℤ) :
    ((evaluateRisk md d ps now).pass = true ↔
      ¬allocationCapFails d ∧ ¬exposureCapFails d ps ∧
      ¬liquidityFloorFails md ∧ ¬cooldownFails md ps now) ∧
    ((evaluateRisk md d ps now).reason = none ↔
      (evaluateRisk md d ps now).pass = true) ∧
    (allocationCapFails d →
      (evaluateRisk md d ps now).reason = some RiskReason.allocationCap) ∧
    (¬allocationCapFails d → exposureCapFails d ps →
      (evaluateRisk md d ps now).reason = some RiskReason.exposureCap) ∧
    (¬allocationCapFails d → ¬exposureCapFails d ps →
      liquidityFloorFails md →
      (evaluateRisk md d ps now).reason = some RiskReason.liquidityFloor) ∧
    (¬allocationCapFails d → ¬exposureCapFails d ps →
      ¬liquidityFloorFails md → cooldownFails md ps now →
      (evaluateRisk md d ps now).reason = some RiskReason.cooldown) ∧
    (lookupEntry ps.lastTradeTimestamps md.token.address = none →
      ¬cooldownFails md ps now) := by
  have hlast : lookupEntry ps.lastTradeTimestamps md.token.address = none →
      ¬cooldownFails md ps now := by
    intro hL hc
    obtain ⟨t, ht, _⟩ := hc
    rw [hL] at ht
    exact Option.noConfusion ht
  rw [evaluateRisk_eq md d ps now]
  refine ⟨?_, ?_, ?_, ?_, ?_, ?_, hlast⟩ <;>
    by_cases h1 : allocationCapFails d <;>
    by_cases h2 : exposureCapFails d ps <;>
    by_cases h3 : liquidityFloorFails md <;>
    by_cases h4 : cooldownFails md ps now <;>
    simp [h1, h2, h3, h4]

/-- Witness for C1: a decision breaking both the allocation cap and the
liquidity floor reports the allocation-cap reason. -/
theorem riskGate_fixed_order_first_failure_witness :
    allocationCapFails bigBuy ∧ liquidityFloorFails lowLiqMd ∧
    (evaluateRisk lowLiqMd bigBuy emptyPortfolio 0).reason =
      some RiskReason.allocationCap := by
  have h1 : allocationCapFails bigBuy := by
    norm_num [allocationCapFails, bigBuy, smallBuy, RISK_CONFIG]
  have h2 : liquidityFloorFails lowLiqMd := by
    norm_num [liquidityFloorFails, lowLiqMd, sampleMd, RISK_CONFIG]
  exact ⟨h1, h2,
    (riskGate_fixed_order_first_failure lowLiqMd bigBuy emptyPortfolio
      0).2.2.1 h1⟩

-- ─── C2 ──────────────────────────────────────────────────────────

/-- C2: given that the allocation-cap rule passes, the exposure-cap rule
fails (and is the reported reason) exactly when the *projected* exposure
`totalExposure + suggestedSize` exceeds `maxTotalExposure`. -/
theorem riskGate_exposure_uses_projected (md : TokenMarketData)
    (d : TradeDecision) (ps : PortfolioState) (now : ℤ)
    (h : ¬allocationCapFails d) :
    (evaluateRisk md d ps now).reason = some RiskReason.exposureCap ↔
      ps.totalExposure + d.suggestedSize > RISK_CONFIG.maxTotalExposure := by
  have hiff : (ps.totalExposure + d.suggestedSize >
      RISK_CONFIG.maxTotalExposure) ↔ exposureCapFails d ps := Iff.rfl
  rw [evaluateRisk_eq md d ps now, hiff]
  by_cases h2 : exposureCapFails d ps <;>
    by_cases h3 : liquidityFloorFails md <;>
    by_cases h4 : cooldownFails md ps now <;>
    simp [h, h2, h3, h4]

/-- Witness for C2: exposure 0.55 with proposal 0.10 fails the exposure
cap (0.65 > 0.60); exposure 0.40 with the same proposal does not. -/
theorem riskGate_exposure_uses_projected_witness :
    ¬allocationCapFails smallBuy ∧
    (evaluateRisk sampleMd smallBuy
      { emptyPortfolio with totalExposure := 55 / 100 } 0).reason =
      some RiskReason.exposureCap ∧
    (evaluateRisk sampleMd smallBuy
      { emptyPortfolio with totalExposure := 40 / 100 } 0).reason ≠
      some RiskReason.exposureCap := by
  have hna : ¬allocationCapFails smallBuy := by
    norm_num [allocationCapFails, smallBuy, RISK_CONFIG]
  refine ⟨hna, ?_, ?_⟩
  · exact (riskGate_exposure_uses_projected sampleMd smallBuy
      { emptyPortfolio with totalExposure := 55 / 100 } 0 hna).mpr
      (by norm_num [smallBuy, RISK_CONFIG])
  · intro hc
    have hgt := (riskGate_exposure_uses_projected sampleMd smallBuy
      { emptyPortfolio with totalExposure := 40 / 100 } 0 hna).mp hc
    norm_num [smallBuy, RISK_CONFIG] at hgt

-- ─── C5 ──────────────────────────────────────────────────────────

/-- Counterexample for C5: `evaluateRisk` is *not* a function of only
(snapshot, decision, portfolio state) — the cooldown rule reads the wall
clock (`Date.now()`, the explicit `now` parameter of the embedding), and
two calls with identical first three arguments but different clock
readings return different outcomes. -/
theorem riskGate_depends_on_wall_clock :
    evaluateRisk sampleMd smallBuy tradedPortfolio 0 ≠
      evaluateRisk sampleMd smallBuy tradedPortfolio 300000 := by
  have h0 : evaluateRisk sampleMd smallBuy tradedPortfolio 0 =
      { pass := false, reason := some RiskReason.cooldown } := by
    rw [evaluateRisk_eq]
    norm_num [allocationCapFails, exposureCapFails, liquidityFloorFails,
      cooldownFails, smallBuy, sampleMd, sampleToken, tradedPortfolio,
      emptyPortfolio, lookupEntry, RISK_CONFIG]
  have h1 : evaluateRisk sampleMd smallBuy tradedPortfolio 300000 =
      { pass := true, reason := none } := by
    rw [evaluateRisk_eq]
    norm_num [allocationCapFails, exposureCapFails, liquidityFloorFails,
      cooldownFails, smallBuy, sampleMd, sampleToken, tradedPortfolio,
      emptyPortfolio, lookupEntry, RISK_CONFIG]
  rw [h0, h1]
  simp

/-- C5 (amended): `evaluateRisk` is a deterministic function of snapshot,
decision, portfolio state *and* the `Date.now()` clock reading used by the
cooldown rule; when no prior trade timestamp exists for the token the
outcome is independent of the clock. -/
theorem riskGate_deterministic_given_clock (md : TokenMarketData)
    (d : TradeDecision) (ps : PortfolioState)
    (h : lookupEntry ps.lastTradeTimestamps md.token.address = none)
    (now now' : ℤ) :
    evaluateRisk md d ps now = evaluateRisk md d ps now' := by
  simp [evaluateRisk, h]

/-- Witness for C5 (amended): on a fresh portfolio the outcome at clock 0
equals the outcome at clock 300000. -/
theorem riskGate_deterministic_given_clock_witness :
    evaluateRisk sampleMd smallBuy emptyPortfolio 0 =
      evaluateRisk sampleMd smallBuy emptyPortfolio 300000 :=
  riskGate_deterministic_given_clock sampleMd smallBuy emptyPortfolio
    rfl 0 300000

-- ─── Momentum helper lemmas ──────────────────────────────────────

/-- The `MomentumStrategy.decide` passes the score through untouched. -/
theorem momentum_decide_score_eq (s : ℚ) :
    (MomentumStrategy.decide s).momentumScore = s := by
  unfold MomentumStrategy.decide
  split_ifs <;> rfl

/-- The `MomentumStrategy.decide` sets confidence to score / 100 in every
branch (BUY, SELL and HOLD alike). -/
theorem momentum_decide_confidence_eq (s : ℚ) :
    (MomentumStrategy.decide s).confidence = s / 100 := by
  unfold MomentumStrategy.decide
  split_ifs <;> rfl

/-- The `clamp` never exceeds its upper bound. -/
theorem clamp_le_right (v mn mx : ℚ) : clamp v mn mx ≤ mx :=
  min_le_right _ _

/-- The `clamp` never undershoots its lower bound (when the bounds are
ordered). -/
theorem le_clamp (v mn mx : ℚ) (h : mn ≤ mx) : mn ≤ clamp v mn mx :=
  le_min (le_max_right _ _) h

/-- The `safeDelta` guard does not fire for a previous value at least
`1e-12`, so the exact delta is returned. -/
theorem safeDelta_of_large (c p : ℚ) (h : 1 / 10 ^ 12 ≤ p) :
    safeDelta c p = (c - p) / p := by
  unfold safeDelta
  rw [if_neg]
  rw [abs_of_pos (lt_of_lt_of_le (by norm_num) h)]
  exact not_lt.mpr h

/-- The `safeRatio` guard does not fire for a previous value at least
`1e-12`, so the exact ratio is returned. -/
theorem safeRatio_of_large (c p : ℚ) (h : 1 / 10 ^ 12 ≤ p) :
    safeRatio c p = c / p := by
  unfold safeRatio
  rw [if_neg]
  rw [abs_of_pos (lt_of_lt_of_le (by norm_num) h)]
  exact not_lt.mpr h

/-- A zero previous value triggers the `safeDelta` guard: neutral 0. -/
theorem safeDelta_zero (c : ℚ) : safeDelta c 0 = 0 := by
  unfold safeDelta
  rw [if_pos]
  rw [abs_zero]
  norm_num

/-- A zero previous value triggers the `safeRatio` guard: neutral 1. -/
theorem safeRatio_zero (c : ℚ) : safeRatio c 0 = 1 := by
  unfold safeRatio
  rw [if_pos]
  rw [abs_zero]
  norm_num

-- ─── C3 ──────────────────────────────────────────────────────────

/-- C3: every decision the Momentum Scorer produces has momentum score in
[0, 100], confidence equal to score / 100 and hence in [0, 1] (HOLD
included), suggested size exactly 0 when the action is HOLD, and suggested
size `POSITION_SIZE * confidence` for non-HOLD actions. -/
theorem momentum_score_bounds_and_sizing (md : TokenMarketData) :
    0 ≤ (MomentumStrategy.score md).momentumScore ∧
    (MomentumStrategy.score md).momentumScore ≤ 100 ∧
    (MomentumStrategy.score md).confidence =
      (MomentumStrategy.score md).momentumScore / 100 ∧
    0 ≤ (MomentumStrategy.score md).confidence ∧
    (MomentumStrategy.score md).confidence ≤ 1 ∧
    ((MomentumStrategy.score md).action = TradeAction.HOLD →
      (MomentumStrategy.score md).suggestedSize = 0) ∧
    ((MomentumStrategy.score md).action ≠ TradeAction.HOLD →
      (MomentumStrategy.score md).suggestedSize =
        config.POSITION_SIZE * (MomentumStrategy.score md).confidence) := by
  have h0 : (0:ℚ) ≤ clamp (MomentumStrategy.rawScore md) 0 100 :=
    le_clamp _ _ _ (by norm_num)
  have h100 : clamp (MomentumStrategy.rawScore md) 0 100 ≤ 100 :=
    clamp_le_right _ _ _
  simp only [MomentumStrategy.score]
  generalize hs : clamp (MomentumStrategy.rawScore md) 0 100 = s
  rw [hs] at h0 h100
  rw [momentum_decide_score_eq, momentum_decide_confidence_eq]
  by_cases hh : (MomentumStrategy.decide s).action = TradeAction.HOLD
  · refine ⟨h0, h100, rfl, div_nonneg h0 (by norm_num), ?_, ?_, ?_⟩
    · rw [div_le_one (by norm_num : (0:ℚ) < 100)]
      exact h100
    · intro _
      rw [if_pos hh]
    · intro hcontra
      exact absurd hh hcontra
  · refine ⟨h0, h100, rfl, div_nonneg h0 (by norm_num), ?_, ?_, ?_⟩
    · rw [div_le_one (by norm_num : (0:ℚ) < 100)]
      exact h100
    · intro hcontra
      exact absurd hcontra hh
    · intro _
      rw [if_neg hh]

/-- Witness for C3 at a concrete snapshot. -/
theorem momentum_score_bounds_and_sizing_witness :
    0 ≤ (MomentumStrategy.score sampleMd).momentumScore ∧
    (MomentumStrategy.score sampleMd).momentumScore ≤ 100 ∧
    (MomentumStrategy.score sampleMd).confidence =
      (MomentumStrategy.score sampleMd).momentumScore / 100 ∧
    0 ≤ (MomentumStrategy.score sampleMd).confidence ∧
    (MomentumStrategy.score sampleMd).confidence ≤ 1 ∧
    ((MomentumStrategy.score sampleMd).action = TradeAction.HOLD →
      (MomentumStrategy.score sampleMd).suggestedSize = 0) ∧
    ((MomentumStrategy.score sampleMd).action ≠ TradeAction.HOLD →
      (MomentumStrategy.score sampleMd).suggestedSize =
        config.POSITION_SIZE * (MomentumStrategy.score sampleMd).confidence) :=
  momentum_score_bounds_and_sizing sampleMd

-- ─── C4 ──────────────────────────────────────────────────────────

/-- The exact scenario snapshot of the spec:
`{price=100, price5mAgo=90, volume1m=300, volume5m=100, liquidity=200000,
previousLiquidity=190000}`. -/
def scenarioSnapshot : TokenMarketData :=
  { token := sampleToken, priceUsd := 100, price1mAgo := 95
    price5mAgo := 90, volume1m := 300, volume5m := 100
    liquidity := 200000, previousLiquidity := 190000, updatedAt := 0 }

/-- The raw weighted blend at the scenario snapshot is 70645/1026. -/
theorem scenario_rawScore :
    MomentumStrategy.rawScore scenarioSnapshot = 70645 / 1026 := by
  unfold MomentumStrategy.rawScore
  simp only [scenarioSnapshot]
  rw [safeDelta_of_large 100 90 (by norm_num),
    safeRatio_of_large 300 100 (by norm_num),
    safeDelta_of_large 200000 190000 (by norm_num)]
  norm_num [normalise, clamp, PRICE_CAP, VOLUME_CAP, LIQUIDITY_CAP,
    W_PRICE, W_VOLUME, W_LIQUIDITY, min_def, max_def]

/-- The composite score at the scenario snapshot. -/
theorem scenario_momentumScore :
    (MomentumStrategy.score scenarioSnapshot).momentumScore =
      70645 / 1026 := by
  simp only [MomentumStrategy.score]
  rw [momentum_decide_score_eq, scenario_rawScore]
  norm_num [clamp, min_def, max_def]

/-- Counterexample for C4: at the spec's scenario snapshot the composite
momentum score is 70645/1026 ≈ 68.9, which is NOT greater than 75, and the
resulting action is HOLD, not BUY. -/
theorem momentum_scenario_not_buy :
    ¬((MomentumStrategy.score scenarioSnapshot).momentumScore > 75 ∧
      (MomentumStrategy.score scenarioSnapshot).action = TradeAction.BUY)
    := by
  intro ⟨hgt, _⟩
  rw [scenario_momentumScore] at hgt
  norm_num at hgt

/-- C4 (amended): at the scenario snapshot the raw signals are
priceChange5m = 1/9 ≈ 0.111, volumeSpikeRatio = 3, liquidityDelta = 1/19 ≈
0.0526, the composite score is 70645/1026 ≈ 68.9 — inside the HOLD band
[40, 75] — so the action is HOLD; the Risk Gate's liquidity floor rule
does pass, since 200000 ≥ 100000. -/
theorem momentum_scenario_hold :
    safeDelta scenarioSnapshot.priceUsd scenarioSnapshot.price5mAgo =
      1 / 9 ∧
    safeRatio scenarioSnapshot.volume1m scenarioSnapshot.volume5m = 3 ∧
    safeDelta scenarioSnapshot.liquidity
      scenarioSnapshot.previousLiquidity = 1 / 19 ∧
    (MomentumStrategy.score scenarioSnapshot).momentumScore =
      70645 / 1026 ∧
    (40:ℚ) ≤ (MomentumStrategy.score scenarioSnapshot).momentumScore ∧
    (MomentumStrategy.score scenarioSnapshot).momentumScore ≤ 75 ∧
    (MomentumStrategy.score scenarioSnapshot).action = TradeAction.HOLD ∧
    ¬liquidityFloorFails scenarioSnapshot := by
  refine ⟨?_, ?_, ?_, scenario_momentumScore, ?_, ?_, ?_, ?_⟩
  · simp only [scenarioSnapshot]
    rw [safeDelta_of_large 100 90 (by norm_num)]
    norm_num
  · simp only [scenarioSnapshot]
    rw [safeRatio_of_large 300 100 (by norm_num)]
    norm_num
  · simp only [scenarioSnapshot]
    rw [safeDelta_of_large 200000 190000 (by norm_num)]
    norm_num
  · rw [scenario_momentumScore]
    norm_num
  · rw [scenario_momentumScore]
    norm_num
  · simp only [MomentumStrategy.score]
    rw [scenario_rawScore]
    norm_num [MomentumStrategy.decide, clamp, min_def, max_def,
      BUY_THRESHOLD, SELL_THRESHOLD]
  · norm_num [liquidityFloorFails, scenarioSnapshot, RISK_CONFIG]

-- ─── C9 ──────────────────────────────────────────────────────────

/-- C9: when the previous-window fields (price5mAgo, volume5m,
previousLiquidity) are all zero, the guarded divisions return the neutral
values (0 for the deltas, 1 for the ratio), every normalised signal is
1/2, and the composite score is the mid-range 50, classified HOLD — no
division error can occur since the embedding is total. -/
theorem momentum_zero_snapshot_neutral (md : TokenMarketData)
    (hp : md.price5mAgo = 0) (hv : md.volume5m = 0)
    (hl : md.previousLiquidity = 0) :
    safeDelta md.priceUsd md.price5mAgo = 0 ∧
    safeRatio md.volume1m md.volume5m = 1 ∧
    safeDelta md.liquidity md.previousLiquidity = 0 ∧
    normalise (safeDelta md.priceUsd md.price5mAgo) PRICE_CAP = 1 / 2 ∧
    normalise (safeRatio md.volume1m md.volume5m - 1) (VOLUME_CAP - 1) =
      1 / 2 ∧
    normalise (safeDelta md.liquidity md.previousLiquidity) LIQUIDITY_CAP
      = 1 / 2 ∧
    (MomentumStrategy.score md).momentumScore = 50 ∧
    (MomentumStrategy.score md).action = TradeAction.HOLD := by
  have e1 : safeDelta md.priceUsd md.price5mAgo = 0 := by
    rw [hp, safeDelta_zero]
  have e2 : safeRatio md.volume1m md.volume5m = 1 := by
    rw [hv, safeRatio_zero]
  have e3 : safeDelta md.liquidity md.previousLiquidity = 0 := by
    rw [hl, safeDelta_zero]
  have hraw : MomentumStrategy.rawScore md = 50 := by
    unfold MomentumStrategy.rawScore
    rw [e1, e2, e3]
    norm_num [normalise, clamp, PRICE_CAP, VOLUME_CAP, LIQUIDITY_CAP,
      W_PRICE, W_VOLUME, W_LIQUIDITY, min_def, max_def]
  refine ⟨e1, e2, e3, ?_, ?_, ?_, ?_, ?_⟩
  · rw [e1]
    norm_num [normalise, clamp, PRICE_CAP, min_def, max_def]
  · rw [e2]
    norm_num [normalise, clamp, VOLUME_CAP, min_def, max_def]
  · rw [e3]
    norm_num [normalise, clamp, LIQUIDITY_CAP, min_def, max_def]
  · simp only [MomentumStrategy.score]
    rw [momentum_decide_score_eq, hraw]
    norm_num [clamp, min_def, max_def]
  · simp only [MomentumStrategy.score]
    rw [hraw]
    norm_num [MomentumStrategy.decide, clamp, min_def, max_def,
      BUY_THRESHOLD, SELL_THRESHOLD]

/-- The all-zero snapshot. -/
def zeroSnapshot : TokenMarketData :=
  { token := sampleToken, priceUsd := 0, price1mAgo := 0, price5mAgo := 0
    volume1m := 0, volume5m := 0, liquidity := 0, previousLiquidity := 0
    updatedAt := 0 }

/-- Witness for C9 at the all-zero snapshot. -/
theorem momentum_zero_snapshot_neutral_witness :
    (MomentumStrategy.score zeroSnapshot).momentumScore = 50 ∧
    (MomentumStrategy.score zeroSnapshot).action = TradeAction.HOLD :=
  ⟨(momentum_zero_snapshot_neutral zeroSnapshot rfl rfl rfl).2.2.2.2.2.2.1,
   (momentum_zero_snapshot_neutral zeroSnapshot rfl rfl rfl).2.2.2.2.2.2.2⟩

-- ─── C6 ──────────────────────────────────────────────────────────

/-- Default lookup after `setEntry` on the written key. -/
theorem getAllocD_setEntry_self (l : List (String × ℚ)) (k : String)
    (v : ℚ) : getAllocD (setEntry l k v) k = v := by
  unfold getAllocD
  rw [lookupEntry_setEntry_self]
  rfl

/-- C6: a non-HOLD decision whose matching snapshot is found and whose
risk evaluation fails is replaced (in place, by the `map`) with a decision
whose action is HOLD, suggested size 0, and rationale equal to the
original rationale with the `RISK BLOCKED` suffix appended — all other
fields (token, confidence, momentum score) unchanged, which is exactly
what the record update expresses; HOLD decisions and decisions that pass
the gate are returned unchanged; and the Orchestrator output is precisely
the per-strategy gated map. -/
theorem orchestrator_risk_block_downgrades (tokens : List TokenMarketData)
    (ps : PortfolioState) (now : ℤ) (d : TradeDecision) :
    (∀ md, d.action ≠ TradeAction.HOLD →
      lookupMarketData tokens d.token.address = some md →
      (evaluateRisk md d ps now).pass = false →
      gateDecision tokens ps now d =
        { d with
            action := TradeAction.HOLD
            suggestedSize := 0
            reason := d.reason ++ " || RISK BLOCKED: " ++
              (((evaluateRisk md d ps now).reason.map reasonText).getD
                ("undefined")) }) ∧
    (d.action = TradeAction.HOLD → gateDecision tokens ps now d = d) ∧
    (∀ md, lookupMarketData tokens d.token.address = some md →
      (evaluateRisk md d ps now).pass = true →
      gateDecision tokens ps now d = d) ∧
    (∀ strategies, DecisionEngine.evaluate strategies tokens ps now =
      (strategies.map (fun s =>
        (s.evaluate tokens).map (gateDecision tokens ps now))).flatten)
    := by
  refine ⟨?_, ?_, ?_, fun strategies => rfl⟩
  · intro md hnh hlk hfail
    simp [gateDecision, hnh, hlk, hfail]
  · intro hH
    unfold gateDecision
    rw [if_pos hH]
  · intro md hlk hpass
    by_cases hH : d.action = TradeAction.HOLD
    · simp [gateDecision, hH]
    · simp [gateDecision, hH, hlk, hpass]

/-- Witness for C6: the small BUY against the low-liquidity snapshot is
downgraded to HOLD with the blocked rationale. -/
theorem orchestrator_risk_block_downgrades_witness :
    gateDecision [lowLiqMd] emptyPortfolio 0 smallBuy =
      { smallBuy with
          action := TradeAction.HOLD
          suggestedSize := 0
          reason := smallBuy.reason ++ " || RISK BLOCKED: " ++
            (((evaluateRisk lowLiqMd smallBuy emptyPortfolio 0).reason.map
              reasonText).getD ("undefined")) } := by
  have hlk : lookupMarketData [lowLiqMd] smallBuy.token.address =
      some lowLiqMd := by
    simp [lookupMarketData, List.find?, lowLiqMd, sampleMd, sampleToken,
      smallBuy]
  have hfail : (evaluateRisk lowLiqMd smallBuy emptyPortfolio 0).pass =
      false := by
    rw [evaluateRisk_eq]
    norm_num [allocationCapFails, exposureCapFails, liquidityFloorFails,
      cooldownFails, smallBuy, lowLiqMd, sampleMd, RISK_CONFIG,
      lookupEntry, emptyPortfolio]
  exact (orchestrator_risk_block_downgrades [lowLiqMd] emptyPortfolio 0
    smallBuy).1 lowLiqMd (by simp [smallBuy]) hlk hfail

-- ─── C7 ──────────────────────────────────────────────────────────

/-- Counterexample for C7: the per-execution mutation of the portfolio
(agentLoop.ts lines 108–120) does *not* maintain
`totalExposure = sum(allocations)` immediately: starting from a consistent
empty portfolio, a successful BUY of size 0.10 updates the allocation map,
yet `totalExposure` stays 0 until the end-of-loop recompute (lines
143–144), so the invariant is broken immediately after that mutation. -/
theorem exposure_stale_after_mutation :
    emptyPortfolio.totalExposure =
      sumAllocations emptyPortfolio.allocations ∧
    (applyExecutionSuccess emptyPortfolio smallBuy 0).totalExposure ≠
      sumAllocations
        (applyExecutionSuccess emptyPortfolio smallBuy 0).allocations := by
  refine ⟨rfl, ?_⟩
  intro hEq
  simp [applyExecutionSuccess, emptyPortfolio, smallBuy, sampleToken,
    setEntry, getAllocD, lookupEntry, sumAllocations] at hEq

/-- C7 (amended): the invariant `totalExposure = sum(allocations)` holds
at the *end of every tick*, after the recompute step that follows the
execution loop; allocation values stay nonnegative throughout (BUY adds a
nonnegative size, SELL subtracts clamped at 0), and a successful SELL sets
the token's allocation to exactly
`max(previous - suggestedSize, 0)`. -/
theorem portfolio_invariants_at_tick_end (ps : PortfolioState)
    (executed : List (TradeDecision × ℤ))
    (hvals : ∀ q ∈ ps.allocations, 0 ≤ q.2)
    (hsz : ∀ p ∈ executed, 0 ≤ p.1.suggestedSize) :
    (tickPortfolio ps executed).totalExposure =
      sumAllocations (tickPortfolio ps executed).allocations ∧
    (∀ q ∈ (tickPortfolio ps executed).allocations, 0 ≤ q.2) ∧
    (∀ (ps' : PortfolioState) (d : TradeDecision) (now : ℤ),
      d.action = TradeAction.SELL →
      getAllocD (applyExecutionSuccess ps' d now).allocations
          d.token.address =
        max (getAllocD ps'.allocations d.token.address - d.suggestedSize)
          0) := by
  refine ⟨rfl, ?_, ?_⟩
  · simp only [tickPortfolio, recomputeExposure]
    exact foldl_applyExecutionSuccess_nonneg executed ps hvals hsz
  · intro ps' d now hsell
    simp [applyExecutionSuccess, hsell]
    rw [getAllocD_setEntry_self]

/-- Witness for C7 (amended) at a concrete tick: one successful BUY of
size 0.10 on the empty portfolio. -/
theorem portfolio_invariants_at_tick_end_witness :
    (tickPortfolio emptyPortfolio [(smallBuy, 0)]).totalExposure =
      sumAllocations
        (tickPortfolio emptyPortfolio [(smallBuy, 0)]).allocations ∧
    (∀ q ∈ (tickPortfolio emptyPortfolio [(smallBuy, 0)]).allocations,
      0 ≤ q.2) := by
  have h := portfolio_invariants_at_tick_end emptyPortfolio
    [(smallBuy, 0)] (by simp [emptyPortfolio])
    (by
      intro p hp
      simp at hp
      subst hp
      norm_num [smallBuy])
  exact ⟨h.1, h.2.1⟩

-- ─── C8 ──────────────────────────────────────────────────────────

/-- C8 (code bug): the source schedules recurring ticks with
`setInterval(tick, POLL_INTERVAL_MS)` after awaiting only the *initial*
tick; `setInterval` fires the asynchronous `tick` callback every interval
without awaiting the previous invocation, so a tick whose processing time
exceeds the interval overlaps the next one.  Concretely, with the default
10000 ms interval and every tick taking 15000 ms, tick 1 is still running
(it ends at 40000 ms) when tick 2 starts (at 35000 ms) — the schedule is
not strictly sequential. -/
theorem setInterval_ticks_overlap :
    ¬ticksSequential (fun _ => 15000) config.POLL_INTERVAL_MS := by
  intro h
  have h1 := h 1
  norm_num [tickEnd, tickStart, config] at h1

-- ─── C10 ─────────────────────────────────────────────────────────

/-- C10: `executeTrade` rejects every HOLD decision up front — regardless
of the dry-run flag and of the gas/hash oracles, it returns failure with
the exact error message and produces neither a transaction hash nor a gas
estimate. -/
theorem executeTrade_rejects_hold (d : TradeDecision) (dryRun : Bool)
    (gas : ℚ) (tx : String) (hd : d.action = TradeAction.HOLD) :
    executeTrade d dryRun gas tx =
      { success := false, txHash := none, gasEstimate := none
        error := some ("HOLD is not an executable action") } := by
  simp [executeTrade, hd]

/-- A concrete HOLD decision. -/
def holdDecision : TradeDecision :=
  { smallBuy with action := TradeAction.HOLD, suggestedSize := 0 }

/-- Witness for C10 at a concrete HOLD decision. -/
theorem executeTrade_rejects_hold_witness :
    executeTrade holdDecision true (1 / 1000) "0xdeadbeef" =
      { success := false, txHash := none, gasEstimate := none
        error := some ("HOLD is not an executable action") } :=
  executeTrade_rejects_hold holdDecision true (1 / 1000) "0xdeadbeef" rfl
